import Mathlib

/-!
Verification of the per-table deletion controller of `spanner-truncate`
(`truncate/deleter.go`).

The Go file defines a `deleter` struct holding a table name, a WHERE
clause, a `status` enum (analyzing, waiting, deleting, cascadeDeleting,
completed) and two `uint64` counters `totalRows` and `remainedRows`,
together with four operations:

  * `deleteRows` — sets status to `deleting`, issues one partitioned
    DELETE statement and returns the underlying error unchanged;
  * `parentDeletionStarted` — sets status to `cascadeDeleting` unless
    the status is already `completed`;
  * `updateRowCount` — runs one COUNT(*) query; on error returns it
    without touching the struct; on success records `totalRows` (only
    when it is still 0), overwrites `remainedRows`, and updates the
    status (`completed` on a zero count, `analyzing → waiting` otherwise);
  * `startRowCountUpdater` — the sampling loop: exits when the status is
    `completed`, otherwise calls `updateRowCount`, then sleeps for
    10 × the elapsed time of the iteration, capped at 30 seconds
    (`time.Duration` arithmetic, i.e. signed 64-bit).

The embedding below is sequential: each Go method becomes a pure
function on the `Deleter` state, with the database interaction
abstracted as an explicit query/PDML outcome parameter (`Except` of an
error message or a row count).  The `client *spanner.Client` handle is
an opaque external collaborator and carries no state relevant to the
claims, so it is omitted from the record.
-/

namespace SpannerTruncate

/-- The `status` enum of `deleter.go` (five constants built with `iota`). -/
inductive Status where
  | analyzing
  | waiting
  | deleting
  | cascadeDeleting
  | completed
deriving DecidableEq, Repr

/-- The `deleter` struct.  `totalRows` and `remainedRows` are Go `uint64`
values, modelled as `Nat` together with the explicit two's-complement
conversion `u64` below where the Go code converts from `int64`. -/
structure Deleter where
  tableName : String
  whereClause : String
  status : Status
  totalRows : Nat
  remainedRows : Nat
deriving DecidableEq, Repr

/-- Go's `uint64(count)` conversion applied to an `int64` value:
the value reduced into the range `[0, 2^64)`. -/
def u64 (c : Int) : Nat := (c % (2 ^ 64 : Int)).toNat

/-- The PDML statement built by `deleteRows`:
`fmt.Sprintf("DELETE FROM 〚%s〛 WHERE %s", d.tableName, d.whereClause)`
(backquotes in the Go format string). -/
def deleteStatement (d : Deleter) : String :=
  "DELETE FROM `" ++ d.tableName ++ "` WHERE " ++ d.whereClause

/-- The COUNT query built by `updateRowCount`. -/
def countStatement (d : Deleter) : String :=
  "SELECT COUNT(*) as count FROM `" ++ d.tableName ++ "` WHERE " ++ d.whereClause

/-- The error component of a PDML outcome (`PartitionedUpdate` returns a
row count and an error; `deleteRows` forwards only the error). -/
def pdmlError : Except String Int → Option String
  | Except.ok _ => none
  | Except.error e => some e

/-- `deleteRows`: set the status to `deleting`, issue exactly one
partitioned DELETE, return the underlying outcome's error unchanged.
The second component is the list of statements issued to the delete
primitive, the third is the returned `error`. -/
def deleteRows (d : Deleter) (pdml : Except String Int) :
    Deleter × List String × Option String :=
  let d1 := { d with status := Status.deleting }
  (d1, [deleteStatement d1], pdmlError pdml)

/-- `parentDeletionStarted`: move to `cascadeDeleting` unless the
deletion has already completed. -/
def parentDeletionStarted (d : Deleter) : Deleter :=
  if d.status ≠ Status.completed then
    { d with status := Status.cascadeDeleting }
  else d

/-- `updateRowCount`, with the COUNT(*) query's outcome made explicit.
On a query error the struct is returned untouched together with the
error.  On success (count `c`, an `int64`): `totalRows` is set to
`uint64(c)` only if it is still `0`; `remainedRows` is overwritten with
`uint64(c)`; the status becomes `completed` when `c == 0`, otherwise it
moves from `analyzing` to `waiting` and is unchanged in any other state.
The assignments follow the order of the Go code. -/
def updateRowCount (d : Deleter) (query : Except String Int) :
    Deleter × Option String :=
  match query with
  | Except.error e => (d, some e)
  | Except.ok c =>
    let d1 := if d.totalRows = 0 then { d with totalRows := u64 c } else d
    let d2 := { d1 with remainedRows := u64 c }
    let d3 :=
      if c = 0 then { d2 with status := Status.completed }
      else if d2.status = Status.analyzing then { d2 with status := Status.waiting }
      else d2
    (d3, none)

/-- The loop body of `startRowCountUpdater`, iterated over a list of
successive COUNT(*) outcomes: each iteration first checks for the
`completed` status (and then exits permanently), otherwise runs
`updateRowCount`, ignoring its error, and sleeps. -/
def runSampler (d : Deleter) : List (Except String Int) → Deleter
  | [] => d
  | q :: rest =>
    if d.status = Status.completed then d
    else runSampler (updateRowCount d q).1 rest

/-- `thirtySeconds` (the sleep ceiling), in nanoseconds — the unit of
Go's `time.Duration`. -/
def thirtySecondsNs : Int := 30 * 1000000000

/-- Reduction of an integer into the signed 64-bit range
`[-2^63, 2^63)`: the semantics of Go's wrapping `int64` arithmetic. -/
def wrap64 (x : Int) : Int := (x + 2 ^ 63) % 2 ^ 64 - 2 ^ 63

/-- The sleep computation of one sampler iteration:
`sleepDuration := time.Since(begin) * 10` (a `time.Duration`
multiplication, i.e. wrapping `int64` arithmetic on nanoseconds),
capped at `thirtySeconds`.  `elapsed` is the elapsed time of the
iteration's query in nanoseconds. -/
def nextSleepDuration (elapsed : Int) : Int :=
  let s := wrap64 (elapsed * 10)
  if s > thirtySecondsNs then thirtySecondsNs else s

/-- The first successful count in a list of query outcomes
(`0` when every outcome is an error). -/
def firstOkCount : List (Except String Int) → Int
  | [] => 0
  | Except.ok c :: _ => c
  | Except.error _ :: rest => firstOkCount rest

/-- A deleter that has already reached `completed`, used as a concrete
test state. -/
def completedDeleter : Deleter :=
  { tableName := "Albums", whereClause := "True",
    status := Status.completed, totalRows := 7, remainedRows := 0 }

/-- A freshly constructed deleter: Go zero values give `statusAnalyzing`
(the first `iota` constant) and zero counters. -/
def freshDeleter : Deleter :=
  { tableName := "Singers", whereClause := "True",
    status := Status.analyzing, totalRows := 0, remainedRows := 0 }

/-- Helper: `u64` of a genuine `COUNT(*)` value (nonnegative, below
`2^64`) is just the value itself. -/
theorem u64_eq_toNat (c : Int) (h1 : 0 ≤ c) (h2 : c < 2 ^ 64) :
    u64 c = c.toNat := by
  unfold u64
  rw [Int.emod_eq_of_lt h1 h2]

/-- Helper: `u64` of a positive in-range count is nonzero. -/
theorem u64_ne_zero (c : Int) (h1 : 0 < c) (h2 : c < 2 ^ 64) : u64 c ≠ 0 := by
  rw [u64_eq_toNat c (le_of_lt h1) h2]
  omega

/-- Helper: a zero-count success sets the status to `completed`. -/
theorem updateRowCount_zero_status (d : Deleter) :
    ((updateRowCount d (Except.ok 0)).1).status = Status.completed := by
  simp [updateRowCount]

/-- Helper: a success with count `c` writes `u64 c` into `totalRows`
when `totalRows` was still zero. -/
theorem updateRowCount_sets_totalRows (d : Deleter) (c : Int)
    (h0 : d.totalRows = 0) :
    ((updateRowCount d (Except.ok c)).1).totalRows = u64 c := by
  by_cases hc : c = 0
  · simp [updateRowCount, h0, hc]
  · simp only [updateRowCount, h0, hc, if_true, if_false, ite_false, ite_true]
    split <;> rfl

/-- Helper: `updateRowCount` never modifies a nonzero `totalRows`. -/
theorem updateRowCount_keeps_totalRows (d : Deleter)
    (q : Except String Int) (h : d.totalRows ≠ 0) :
    ((updateRowCount d q).1).totalRows = d.totalRows := by
  match q with
  | Except.error e => rfl
  | Except.ok c =>
    by_cases hc : c = 0
    · simp [updateRowCount, h, hc]
    · simp only [updateRowCount, h, hc, if_true, if_false, ite_false, ite_true]
      split <;> rfl

/-- Helper: the sampler loop exits immediately once the status is
`completed`. -/
theorem runSampler_completed (d : Deleter) (h : d.status = Status.completed) :
    ∀ qs, runSampler d qs = d
  | [] => rfl
  | q :: rest => by simp [runSampler, h]

/-- Helper: the sampler never modifies a nonzero `totalRows`. -/
theorem runSampler_keeps_totalRows (d : Deleter)
    (qs : List (Except String Int)) (h : d.totalRows ≠ 0) :
    (runSampler d qs).totalRows = d.totalRows := by
  induction qs generalizing d with
  | nil => rfl
  | cons q rest ih =>
    by_cases hs : d.status = Status.completed
    · simp [runSampler, hs]
    · have hkeep := updateRowCount_keeps_totalRows d q h
      have := ih (updateRowCount d q).1 (by rw [hkeep]; exact h)
      simp only [runSampler, hs, if_false, ite_false]
      rw [this, hkeep]

/-- C3: a successful sample with count zero forces `completed`,
whatever the state before the sample: `updateRowCount` assigns
`statusCompleted` in its `count == 0` branch with no guard on the
current status. -/
theorem zero_count_sample_completes (d : Deleter) :
    ((updateRowCount d (Except.ok 0)).1).status = Status.completed :=
  updateRowCount_zero_status d

/-- C4: `parentDeletionStarted` results in `cascadeDeleting` exactly
when the current status is not `completed` (from `completed` it is a
no-op), and no field other than `status` changes. -/
theorem parentDeletionStarted_spec (d : Deleter) :
    (parentDeletionStarted d).status =
      (if d.status = Status.completed then Status.completed
       else Status.cascadeDeleting) ∧
    (parentDeletionStarted d).tableName = d.tableName ∧
    (parentDeletionStarted d).whereClause = d.whereClause ∧
    (parentDeletionStarted d).totalRows = d.totalRows ∧
    (parentDeletionStarted d).remainedRows = d.remainedRows := by
  by_cases h : d.status = Status.completed <;>
    simp [parentDeletionStarted, h]

/-- C6: `deleteRows` sets the status to `deleting` (never `completed`),
issues exactly one partitioned DELETE statement built from the table
name and the WHERE clause, and returns the underlying operation's error
component unchanged, with no retry and no other field modified. -/
theorem deleteRows_spec (d : Deleter) (pdml : Except String Int) :
    deleteRows d pdml =
      ({ d with status := Status.deleting }, [deleteStatement d], pdmlError pdml) ∧
    Status.deleting ≠ Status.completed := by
  refine ⟨?_, by decide⟩
  simp [deleteRows, deleteStatement]

/-- C8: when the COUNT(*) query fails, `updateRowCount` returns the
error and leaves the deleter completely unchanged, and the sampler loop
simply proceeds with the remaining iterations. -/
theorem updateRowCount_error_atomic (d : Deleter) (e : String)
    (rest : List (Except String Int)) (h : d.status ≠ Status.completed) :
    updateRowCount d (Except.error e) = (d, some e) ∧
    runSampler d (Except.error e :: rest) = runSampler d rest := by
  refine ⟨rfl, ?_⟩
  simp [runSampler, h, updateRowCount]

/-- Witness for `updateRowCount_error_atomic` at a concrete deleter,
error and tail. -/
theorem updateRowCount_error_atomic_witness :
    updateRowCount freshDeleter (Except.error "deadline exceeded") =
      (freshDeleter, some "deadline exceeded") ∧
    runSampler freshDeleter (Except.error "deadline exceeded" :: [Except.ok 4]) =
      runSampler freshDeleter [Except.ok 4] :=
  updateRowCount_error_atomic freshDeleter "deadline exceeded" [Except.ok 4]
    (by decide)

/-- C9: every successful sample overwrites `remainedRows` with
`uint64(count)`, whatever the previous value and the current status. -/
theorem remainedRows_overwritten (d : Deleter) (c : Int) :
    ((updateRowCount d (Except.ok c)).1).remainedRows = u64 c := by
  by_cases h0 : d.totalRows = 0 <;>
    by_cases hc : c = 0 <;>
      simp [updateRowCount, h0, hc] <;>
        split <;> rfl

/-- C2: over any run of the sampler loop from a deleter whose
`totalRows` is still zero (and whose status is not yet `completed`),
with every successful count in the valid `COUNT(*)` range
`[0, 2^63)`, the final `totalRows` equals the first successful sample's
count; later successful samples never overwrite it, because a nonzero
first count makes the write guard `totalRows == 0` false forever, and
a zero first count terminates the loop. -/
theorem totalRows_is_first_sample (d : Deleter)
    (qs : List (Except String Int)) (hs : d.status ≠ Status.completed)
    (h0 : d.totalRows = 0)
    (hr : ∀ c : Int, Except.ok (ε := String) c ∈ qs → 0 ≤ c ∧ c < 2 ^ 63) :
    (runSampler d qs).totalRows = u64 (firstOkCount qs) := by
  induction qs generalizing d with
  | nil =>
    show d.totalRows = u64 (firstOkCount [])
    rw [h0, firstOkCount]
    rfl
  | cons q rest ih =>
    have hstep : runSampler d (q :: rest) = runSampler (updateRowCount d q).1 rest := by
      simp [runSampler, hs]
    rw [hstep]
    cases q with
    | error e =>
      rw [show (updateRowCount d (Except.error e)).1 = d from rfl, firstOkCount]
      exact ih d hs h0 fun c hc => hr c (List.mem_cons_of_mem _ hc)
    | ok c =>
      have htot := updateRowCount_sets_totalRows d c h0
      rw [firstOkCount]
      by_cases hc : c = 0
      · subst hc
        rw [runSampler_completed _ (updateRowCount_zero_status d) rest]
        exact htot
      · have hrange := hr c (List.mem_cons_self _ _)
        have hne : u64 c ≠ 0 :=
          u64_ne_zero c (lt_of_le_of_ne hrange.1 (Ne.symm hc))
            (lt_trans hrange.2 (by norm_num))
        rw [runSampler_keeps_totalRows _ rest (htot ▸ hne)]
        exact htot

/-- Witness for `totalRows_is_first_sample`: a fresh deleter runs the
sampler over an error, then counts 5, 3 and 0; `totalRows` ends at the
first successful count, 5, although later samples differ. -/
theorem totalRows_is_first_sample_witness :
    (runSampler freshDeleter
        [Except.error "unavailable", Except.ok 5, Except.ok 3, Except.ok 0]).totalRows =
      u64 (firstOkCount
        [Except.error "unavailable", Except.ok 5, Except.ok 3, Except.ok 0]) :=
  totalRows_is_first_sample freshDeleter
    [Except.error "unavailable", Except.ok 5, Except.ok 3, Except.ok 0]
    (by decide) rfl
    (by
      intro c hc
      simp only [List.mem_cons, List.not_mem_nil, or_false] at hc
      rcases hc with hc | hc | hc | hc
      · exact Except.noConfusion hc
      · rw [Except.ok.injEq] at hc; subst hc; norm_num
      · rw [Except.ok.injEq] at hc; subst hc; norm_num
      · rw [Except.ok.injEq] at hc; subst hc; norm_num)

/-- C10: a successful nonzero sample changes the status only out of
`analyzing` (to `waiting`); in `waiting`, `deleting` or
`cascadeDeleting` the status is untouched, and the only fields modified
are `totalRows` (only when it was still zero) and `remainedRows`. -/
theorem nonzero_sample_frame (d : Deleter) (c : Int) (hc : c ≠ 0) :
    ((updateRowCount d (Except.ok c)).1).status =
      (if d.status = Status.analyzing then Status.waiting else d.status) ∧
    ((updateRowCount d (Except.ok c)).1).tableName = d.tableName ∧
    ((updateRowCount d (Except.ok c)).1).whereClause = d.whereClause ∧
    ((updateRowCount d (Except.ok c)).1).totalRows =
      (if d.totalRows = 0 then u64 c else d.totalRows) ∧
    ((updateRowCount d (Except.ok c)).1).remainedRows = u64 c := by
  by_cases h0 : d.totalRows = 0 <;>
    by_cases hs : d.status = Status.analyzing <;>
      simp [updateRowCount, h0, hs, hc]

/-- Witness for `nonzero_sample_frame`: a nonzero sample on a deleter in
`deleting` status with a recorded total leaves the status and the total
unchanged and rewrites only `remainedRows`. -/
theorem nonzero_sample_frame_witness :
    ((updateRowCount
        { tableName := "Songs", whereClause := "True",
          status := Status.deleting, totalRows := 9, remainedRows := 9 }
        (Except.ok 4)).1).status =
      (if Status.deleting = Status.analyzing then Status.waiting
       else Status.deleting) ∧
    ((updateRowCount
        { tableName := "Songs", whereClause := "True",
          status := Status.deleting, totalRows := 9, remainedRows := 9 }
        (Except.ok 4)).1).tableName = "Songs" ∧
    ((updateRowCount
        { tableName := "Songs", whereClause := "True",
          status := Status.deleting, totalRows := 9, remainedRows := 9 }
        (Except.ok 4)).1).whereClause = "True" ∧
    ((updateRowCount
        { tableName := "Songs", whereClause := "True",
          status := Status.deleting, totalRows := 9, remainedRows := 9 }
        (Except.ok 4)).1).totalRows = (if (9 : Nat) = 0 then u64 4 else 9) ∧
    ((updateRowCount
        { tableName := "Songs", whereClause := "True",
          status := Status.deleting, totalRows := 9, remainedRows := 9 }
        (Except.ok 4)).1).remainedRows = u64 4 :=
  nonzero_sample_frame
    { tableName := "Songs", whereClause := "True",
      status := Status.deleting, totalRows := 9, remainedRows := 9 }
    4 (by decide)

/-- C7: when the PDML outcome is an error, `deleteRows` returns with the
status it entered for this attempt (`deleting`, in particular `deleting`
or `cascadeDeleting`), performs no further bookkeeping (all other fields
keep their values), and a subsequent retry issues exactly the same
predicate-scoped DELETE statement. -/
theorem deleteRows_error_spec (d : Deleter) (pdml : Except String Int)
    (e : String) (h : pdml = Except.error e) :
    (((deleteRows d pdml).1).status = Status.deleting ∨
      ((deleteRows d pdml).1).status = Status.cascadeDeleting) ∧
    (deleteRows d pdml).2.2 = some e ∧
    ((deleteRows d pdml).1).tableName = d.tableName ∧
    ((deleteRows d pdml).1).whereClause = d.whereClause ∧
    ((deleteRows d pdml).1).totalRows = d.totalRows ∧
    ((deleteRows d pdml).1).remainedRows = d.remainedRows ∧
    ∀ pdml2 : Except String Int,
      (deleteRows (deleteRows d pdml).1 pdml2).2.1 = (deleteRows d pdml).2.1 := by
  subst h
  refine ⟨Or.inl rfl, rfl, rfl, rfl, rfl, rfl, fun pdml2 => rfl⟩

/-- Witness for `deleteRows_error_spec` at a concrete deleter and a
failed PDML outcome. -/
theorem deleteRows_error_spec_witness :
    (((deleteRows freshDeleter (Except.error "aborted")).1).status =
        Status.deleting ∨
      ((deleteRows freshDeleter (Except.error "aborted")).1).status =
        Status.cascadeDeleting) ∧
    (deleteRows freshDeleter (Except.error "aborted")).2.2 = some "aborted" ∧
    ((deleteRows freshDeleter (Except.error "aborted")).1).tableName =
      "Singers" ∧
    ((deleteRows freshDeleter (Except.error "aborted")).1).whereClause =
      "True" ∧
    ((deleteRows freshDeleter (Except.error "aborted")).1).totalRows = 0 ∧
    ((deleteRows freshDeleter (Except.error "aborted")).1).remainedRows = 0 ∧
    ∀ pdml2 : Except String Int,
      (deleteRows (deleteRows freshDeleter (Except.error "aborted")).1 pdml2).2.1 =
        (deleteRows freshDeleter (Except.error "aborted")).2.1 :=
  deleteRows_error_spec freshDeleter (Except.error "aborted") "aborted" rfl

/-- C1 counterexample: the claim that `completed` is terminal under
every operation is false — `deleteRows` on a deleter whose status is
`completed` unconditionally moves the status to `deleting`. -/
theorem completed_not_terminal_counterexample :
    completedDeleter.status = Status.completed ∧
    ((deleteRows completedDeleter (Except.ok 0)).1).status = Status.deleting ∧
    Status.deleting ≠ Status.completed := by
  refine ⟨rfl, rfl, by decide⟩

/-- C1 amended: once `completed` is reached, `parentDeletionStarted`
and `updateRowCount` (successful or failed samples alike) leave the
status `completed`; `deleteRows`, however, always resets the status to
`deleting`, even from `completed`. -/
theorem completed_terminal_amended (d : Deleter)
    (query pdml : Except String Int) (h : d.status = Status.completed) :
    (parentDeletionStarted d).status = Status.completed ∧
    ((updateRowCount d query).1).status = Status.completed ∧
    ((deleteRows d pdml).1).status = Status.deleting := by
  refine ⟨by simp [parentDeletionStarted, h], ?_, rfl⟩
  match query with
  | Except.error e => simpa [updateRowCount] using h
  | Except.ok c =>
    by_cases h0 : d.totalRows = 0 <;>
      by_cases hc : c = 0 <;>
        simp [updateRowCount, h0, hc, h]

/-- Witness for `completed_terminal_amended` at a completed deleter with
one successful sample and one successful PDML outcome. -/
theorem completed_terminal_amended_witness :
    (parentDeletionStarted completedDeleter).status = Status.completed ∧
    ((updateRowCount completedDeleter (Except.ok 3)).1).status =
      Status.completed ∧
    ((deleteRows completedDeleter (Except.ok 5)).1).status = Status.deleting :=
  completed_terminal_amended completedDeleter (Except.ok 3) (Except.ok 5) rfl

/-- Helper: `wrap64` is the identity on values already in the signed
64-bit range. -/
theorem wrap64_eq_self (x : Int) (h1 : -(2 ^ 63) ≤ x) (h2 : x < 2 ^ 63) :
    wrap64 x = x := by
  unfold wrap64
  rw [Int.emod_eq_of_lt (by norm_num at h1 ⊢; omega) (by norm_num at h2 ⊢; omega)]
  ring

/-- C5 counterexample: the claim that the sleep equals exactly 30
seconds whenever `10 × elapsed` exceeds 30 seconds is false — the
`time.Duration` product wraps in `int64`, so an elapsed time of `2^62`
nanoseconds (whose tenfold far exceeds 30 seconds) yields a sleep of
`-2^63` nanoseconds (an immediate wake-up), not 30 seconds. -/
theorem sleep_cap_counterexample :
    thirtySecondsNs < 10 * (2 ^ 62 : Int) ∧
    nextSleepDuration (2 ^ 62) = -(2 ^ 63) ∧
    nextSleepDuration (2 ^ 62) ≠ thirtySecondsNs := by
  refine ⟨by norm_num [thirtySecondsNs], ?_, ?_⟩ <;>
    norm_num [nextSleepDuration, wrap64, thirtySecondsNs]

/-- C5 amended: whenever `10 × elapsed` fits in `int64` — in particular
for every realistic query latency — the sleep equals
`min (10 × elapsed) thirtySeconds`, i.e. `10 × elapsed` when that is at
most 30 seconds and exactly 30 seconds otherwise; and for every `int64`
elapsed value, overflow included, the sleep never exceeds 30 seconds. -/
theorem nextSleepDuration_spec (elapsed : Int) :
    (0 ≤ elapsed → 10 * elapsed < 2 ^ 63 →
      nextSleepDuration elapsed = min (10 * elapsed) thirtySecondsNs) ∧
    nextSleepDuration elapsed ≤ thirtySecondsNs := by
  constructor
  · intro h1 h2
    have hw : wrap64 (elapsed * 10) = elapsed * 10 :=
      wrap64_eq_self (elapsed * 10) (by norm_num at h2 ⊢; omega)
        (by norm_num at h2 ⊢; omega)
    simp only [nextSleepDuration, thirtySecondsNs] at *
    rw [hw, min_def]
    split_ifs <;> omega
  · simp only [nextSleepDuration]
    split_ifs with ha
    · exact le_refl _
    · omega

/-- Witness for `nextSleepDuration_spec`: a 2-millisecond query yields a
20-millisecond sleep, under the 30-second ceiling. -/
theorem nextSleepDuration_spec_witness :
    nextSleepDuration 2000000 = min (10 * 2000000) thirtySecondsNs ∧
    nextSleepDuration 2000000 ≤ thirtySecondsNs :=
  ⟨(nextSleepDuration_spec 2000000).1 (by norm_num) (by norm_num),
    (nextSleepDuration_spec 2000000).2⟩

end SpannerTruncate
